import Mathlib

/-!
Verification of the Syllabus Scanner backend (`src/backend/main.py`).

The development shallowly embeds the pure logic of the backend:
  * a model of Python `json.loads` (external library; recursive descent with
    fuel, faithful to CPython `json/scanner.py` + `json/decoder.py` on the
    accepted grammar; error messages are simplified to the leading phrase of
    CPython's messages, without line/column positions),
  * `extract_course_and_events_with_gemini` (fence stripping + reply-shape
    dispatch),
  * `parse_event_date` (the date normalizer, with models of `strptime` for
    the five formats the code tries and of `strftime("%Y-%m-%d")`),
  * `_process_syllabus_impl` / `delete_class` (the orchestrator), with the
    external collaborators (HTTP fetch, pypdf page extraction, the LLM reply,
    the Supabase insert/delete outcome) supplied as request-scoped inputs.
-/

/-! ### Character and string utilities -/

/-- Whitespace for Python `str.strip()` and the regex `\s` class
    (ASCII part; the code never manipulates non-ASCII whitespace). -/
def isPyWs (c : Char) : Bool :=
  (c == '\x0c') || (c == '\x0b') || (c == '\r') || (c == '\n') || (c == '\t') || (c == ' ')

/-- JSON whitespace, as skipped by `json.loads` (exactly these four). -/
def isJsonWs (c : Char) : Bool :=
  (c == '\r') || (c == '\n') || (c == '\t') || (c == ' ')

/-- Python `str.strip()` on a character list. -/
def pyStripCh (cs : List Char) : List Char :=
  ((cs.dropWhile isPyWs).reverse.dropWhile isPyWs).reverse

/-- Python `str.strip()`. -/
def pyStrip (s : String) : String := String.mk (pyStripCh s.toList)

/-- Python slicing `s[:n]` (by code point). -/
def strTake (n : Nat) (s : String) : String := String.mk (s.toList.take n)

/-! ### JSON values

A decoded JSON value as produced by Python `json.loads`.  Numbers keep their
source lexeme: the backend never computes with a numeric value, it only tests
truthiness and stringifies, so the lexeme is all that is ever consumed. -/

inductive Json where
  | obj (fields : List (String × Json))
  | arr (items : List Json)
  | str (s : String)
  | num (lexeme : String)
  | bool (b : Bool)
  | null

/-- Digit run to a natural number (most significant first). -/
def digitsVal (ds : List Char) : Nat :=
  ds.foldl (fun a c => 10 * a + (c.toNat - 48)) 0

/-- A numeric lexeme whose decoded Python value is falsy, i.e.
    `float(lexeme) == 0.0`.  CPython's decoder converts the lexeme with a
    correctly-rounded string-to-double, so the value is `±0.0` exactly when
    the denoted real `m × 10^q` (mantissa digits `m`, scaled exponent `q`)
    is at most half the smallest subnormal, `2^-1075` — the tie itself
    rounds to the even candidate `0.0`.  So for `m ≠ 0` the test is
    `q < 0 ∧ m * 2^1075 ≤ 10^(-q)`; overflow to `inf` and the constants
    `NaN`/`Infinity`/`-Infinity` are truthy.  (Lexemes outside the decoder's
    grammar, which `float()` would reject, never reach this function.) -/
def numLexZero (lex : String) : Bool :=
  let signed := lex.toList
  let cs := match signed with
    | '-' :: r => r
    | _ => signed
  match cs with
  | 'N' :: _ => false
  | 'I' :: _ => false
  | body =>
    let (ip, r1) := body.span Char.isDigit
    let (fp, r2) := match r1 with
      | '.' :: r => r.span Char.isDigit
      | _ => (([] : List Char), r1)
    let expv : Int := match r2 with
      | [] => 0
      | _ :: '-' :: r3 => -(digitsVal (r3.takeWhile Char.isDigit) : Int)
      | _ :: '+' :: r3 => (digitsVal (r3.takeWhile Char.isDigit) : Int)
      | _ :: r3 => (digitsVal (r3.takeWhile Char.isDigit) : Int)
    let m := digitsVal (ip ++ fp)
    let q : Int := expv - (fp.length : Int)
    m == 0 || (decide (q < 0) && decide (m * 2 ^ 1075 ≤ 10 ^ (-q).toNat))

/-- Python truthiness (`bool(x)`) of a decoded JSON value. -/
def Json.pyTruthy : Json → Bool
  | .null => false
  | .bool b => b
  | .num lex => !numLexZero lex
  | .str s => s ≠ ""
  | .arr l => !l.isEmpty
  | .obj kvs => !kvs.isEmpty

/-- True for values that are neither a JSON array nor a JSON object. -/
def Json.isScalar : Json → Bool
  | .arr _ => false
  | .obj _ => false
  | _ => true

mutual
/-- Python `repr()` of a decoded JSON value (used inside `str()` of
    containers).  String escaping inside `repr` and float re-formatting are
    not reproduced: the backend only feeds the result to `parse_event_date`
    (where any container/constant rendering fails every date format the same
    way) and into the `"Type: ..."` f-string. -/
def Json.pyRepr : Json → String
  | .null => "None"
  | .bool true => "True"
  | .bool false => "False"
  | .num lex => lex
  | .str s => "\x27" ++ s ++ "\x27"
  | .arr l => "[" ++ String.intercalate ", " (pyReprList l) ++ "]"
  | .obj kvs => "\x7b" ++ String.intercalate ", " (pyReprPairs kvs) ++ "\x7d"

def pyReprList : List Json → List String
  | [] => []
  | v :: r => v.pyRepr :: pyReprList r

def pyReprPairs : List (String × Json) → List String
  | [] => []
  | (k, v) :: r => ("\x27" ++ k ++ "\x27: " ++ v.pyRepr) :: pyReprPairs r
end

/-- Python `str()` of a decoded JSON value (f-strings, `str(date_str)`). -/
def Json.pyStr : Json → String
  | .str s => s
  | v => v.pyRepr

/-- Lookup in a dict built by `json.loads`: the last binding of a duplicated
    key wins, missing key gives `none` (Python `dict.get` default). -/
def dictGet (kvs : List (String × Json)) (k : String) : Option Json :=
  (kvs.reverse.find? (fun p => p.1 = k)).map Prod.snd

/-! ### A model of `json.loads` (CPython `json` module, strict mode) -/

/-- Digit run (`\d*`). -/
def lexDigits (cs : List Char) : List Char × List Char :=
  cs.span Char.isDigit

/-- The number regex of `json/scanner.py`:
    `(-?(?:0|[1-9]\d*))(\.\d+)?([eE][-+]?\d+)?`, returned as a lexeme. -/
def lexNumber (cs : List Char) : Option (List Char × List Char) :=
  let (sg, cs1) := match cs with
    | '-' :: r => ([('-' : Char)], r)
    | _ => (([] : List Char), cs)
  match cs1 with
  | [] => none
  | c :: _ =>
    if !c.isDigit then none
    else
      let (ip, cs2) := if c == '0' then ([('0' : Char)], cs1.tail) else lexDigits cs1
      let (fp, cs3) := match cs2 with
        | '.' :: r =>
          let (ds, r2) := lexDigits r
          if ds.isEmpty then (([] : List Char), cs2) else ('.' :: ds, r2)
        | _ => (([] : List Char), cs2)
      let (ep, cs4) := match cs3 with
        | e :: r =>
          if e == 'e' || e == 'E' then
            let (sgn, r1) := match r with
              | s :: r2 => if s == '+' || s == '-' then ([s], r2) else (([] : List Char), r)
              | [] => (([] : List Char), r)
            let (ds, r2) := lexDigits r1
            if ds.isEmpty then (([] : List Char), cs3) else (e :: (sgn ++ ds), r2)
          else (([] : List Char), cs3)
        | [] => (([] : List Char), cs3)
      some (sg ++ ip ++ fp ++ ep, cs4)

def hexVal (c : Char) : Option Nat :=
  let n := c.toNat
  if 48 ≤ n && n ≤ 57 then some (n - 48)
  else if 97 ≤ n && n ≤ 102 then some (n - 87)
  else if 65 ≤ n && n ≤ 70 then some (n - 55)
  else none

def escChar : Char → Option Char
  | 'n' => some '\n'
  | 't' => some '\t'
  | 'r' => some '\r'
  | 'b' => some '\x08'
  | 'f' => some '\x0c'
  | '/' => some '/'
  | '\\' => some '\\'
  | '"' => some '"'
  | _ => none

/-- String body after the opening quote (`json/decoder.py` `py_scanstring`,
    strict mode: raw control characters are an error).  `\uXXXX` escapes are
    mapped through `Char.ofNat` (lone surrogates, which Python would keep,
    fall to the replacement behaviour of `Char.ofNat`; the backend never
    relies on them). -/
def lexString : Nat → List Char → Except String (List Char × List Char)
  | 0, _ => .error "out of fuel"
  | _ + 1, [] => .error "Unterminated string starting at"
  | fuel + 1, c :: r =>
    if c == '"' then .ok ([], r)
    else if c == '\\' then
      match r with
      | [] => .error "Unterminated string starting at"
      | 'u' :: a :: b :: c2 :: d :: r2 =>
        match hexVal a, hexVal b, hexVal c2, hexVal d with
        | some va, some vb, some vc, some vd =>
          (lexString fuel r2).map
            (fun p => (Char.ofNat (((va * 16 + vb) * 16 + vc) * 16 + vd) :: p.1, p.2))
        | _, _, _, _ => .error "Invalid \\uXXXX escape"
      | 'u' :: _ => .error "Invalid \\uXXXX escape"
      | e :: r2 =>
        match escChar e with
        | some ch => (lexString fuel r2).map (fun p => (ch :: p.1, p.2))
        | none => .error "Invalid \\escape"
    else if c.toNat < 0x20 then .error "Invalid control character"
    else (lexString fuel r).map (fun p => (c :: p.1, p.2))

mutual
/-- One JSON value (`_scan_once`): dispatch on the first character, then
    literals, the number regex, and the non-standard constants. -/
def parseValue : Nat → List Char → Except String (Json × List Char)
  | 0, _ => .error "out of fuel"
  | fuel + 1, cs =>
    match cs with
    | [] => .error "Expecting value"
    | '"' :: r =>
      (lexString (r.length + 1) r).map (fun p => (.str (String.mk p.1), p.2))
    | '{' :: r => parseMembersFirst fuel (r.dropWhile isJsonWs)
    | '[' :: r => parseElemsFirst fuel (r.dropWhile isJsonWs)
    | 'n' :: 'u' :: 'l' :: 'l' :: r => .ok (.null, r)
    | 't' :: 'r' :: 'u' :: 'e' :: r => .ok (.bool true, r)
    | 'f' :: 'a' :: 'l' :: 's' :: 'e' :: r => .ok (.bool false, r)
    | cs =>
      match lexNumber cs with
      | some (lex, r) => .ok (.num (String.mk lex), r)
      | none =>
        match cs with
        | 'N' :: 'a' :: 'N' :: r => .ok (.num "NaN", r)
        | 'I' :: 'n' :: 'f' :: 'i' :: 'n' :: 'i' :: 't' :: 'y' :: r =>
          .ok (.num "Infinity", r)
        | '-' :: 'I' :: 'n' :: 'f' :: 'i' :: 'n' :: 'i' :: 't' :: 'y' :: r =>
          .ok (.num "-Infinity", r)
        | _ => .error "Expecting value"

/-- Array elements, cursor on the first element or on `]` (empty array). -/
def parseElemsFirst : Nat → List Char → Except String (Json × List Char)
  | 0, _ => .error "out of fuel"
  | fuel + 1, cs =>
    match cs with
    | ']' :: r => .ok (.arr [], r)
    | _ =>
      match parseValue fuel cs with
      | .error e => .error e
      | .ok (v, r) => parseElemsRest fuel [v] (r.dropWhile isJsonWs)

/-- Array continuation: after a value, expect `,` (then a value) or `]`. -/
def parseElemsRest : Nat → List Json → List Char → Except String (Json × List Char)
  | 0, _, _ => .error "out of fuel"
  | fuel + 1, acc, cs =>
    match cs with
    | ']' :: r => .ok (.arr acc.reverse, r)
    | ',' :: r =>
      match parseValue fuel (r.dropWhile isJsonWs) with
      | .error e => .error e
      | .ok (v, r2) => parseElemsRest fuel (v :: acc) (r2.dropWhile isJsonWs)
    | _ => .error "Expecting comma delimiter"

/-- Object members, cursor on the first key or on `}` (empty object). -/
def parseMembersFirst : Nat → List Char → Except String (Json × List Char)
  | 0, _ => .error "out of fuel"
  | fuel + 1, cs =>
    match cs with
    | '}' :: r => .ok (.obj [], r)
    | '"' :: r =>
      match lexString (r.length + 1) r with
      | .error e => .error e
      | .ok (k, r2) => parseMemberValue fuel [] (String.mk k) (r2.dropWhile isJsonWs)
    | _ => .error "Expecting property name enclosed in double quotes"

/-- After a key: expect `:`, a value, then `,` (next key) or `}`. -/
def parseMemberValue :
    Nat → List (String × Json) → String → List Char → Except String (Json × List Char)
  | 0, _, _, _ => .error "out of fuel"
  | fuel + 1, acc, k, cs =>
    match cs with
    | ':' :: r =>
      match parseValue fuel (r.dropWhile isJsonWs) with
      | .error e => .error e
      | .ok (v, r2) => parseMembersRest fuel ((k, v) :: acc) (r2.dropWhile isJsonWs)
    | _ => .error "Expecting colon delimiter"

/-- Object continuation: after a member, expect `,` (then a key) or `}`. -/
def parseMembersRest :
    Nat → List (String × Json) → List Char → Except String (Json × List Char)
  | 0, _, _ => .error "out of fuel"
  | fuel + 1, acc, cs =>
    match cs with
    | '}' :: r => .ok (.obj acc.reverse, r)
    | ',' :: r =>
      match r.dropWhile isJsonWs with
      | '"' :: r2 =>
        match lexString (r2.length + 1) r2 with
        | .error e => .error e
        | .ok (k, r3) => parseMemberValue fuel acc (String.mk k) (r3.dropWhile isJsonWs)
      | _ => .error "Expecting property name enclosed in double quotes"
    | _ => .error "Expecting comma delimiter"
end

/-- Model of Python `json.loads`: skip leading whitespace, parse one value,
    require only whitespace after it.  The fuel is an upper bound on the
    recursion the input can force (each nested container consumes input). -/
def json_loads (s : String) : Except String Json :=
  let cs := s.toList.dropWhile isJsonWs
  match parseValue (2 * cs.length + 8) cs with
  | .error e => .error e
  | .ok (v, rest) =>
    if (rest.dropWhile isJsonWs).isEmpty then .ok v else .error "Extra data"

/-! ### Fence stripping (`extract_course_and_events_with_gemini`, lines 107-109)

`re.sub(r"^```(?:json)?\s*", "", raw)` and `re.sub(r"\s*```\s*$", "", raw)`,
applied only when `raw.startswith("```")`.  The opening pattern never
backtracks (after the optional literal `json`, `\s*` always succeeds), so it
removes the three backticks, then the literal `json` if present, then a
whitespace run.  The closing pattern is `$`-anchored, so its leftmost match
removes the maximal whitespace run before the final backtick triple together
with that triple and trailing whitespace; with no such suffix the string is
unchanged. -/

def stripOpenFence (cs : List Char) : List Char :=
  let r := cs.drop 3
  let r2 := if r.take 4 = ['j', 's', 'o', 'n'] then r.drop 4 else r
  r2.dropWhile isPyWs

def stripCloseFence (cs : List Char) : List Char :=
  let r := cs.reverse.dropWhile isPyWs
  if r.take 3 = ['`', '`', '`'] then ((r.drop 3).dropWhile isPyWs).reverse else cs

def stripFencesCh (cs : List Char) : List Char :=
  if cs.take 3 = ['`', '`', '`'] then stripCloseFence (stripOpenFence cs) else cs

def stripFences (s : String) : String := String.mk (stripFencesCh s.toList)

/-! ### The Event Extraction Client (`extract_course_and_events_with_gemini`) -/

/-- Failures of `extract_course_and_events_with_gemini`.
    `valueError` is the `raise ValueError(...)` for non-JSON replies (caught by
    the orchestrator and turned into a 502); `attrError` is the
    `AttributeError` Python raises at `(data.get("course") or "").strip()`
    when the `"course"` value is truthy but not a string (escapes the
    function, caught by the outer generic 500 handler). -/
inductive GemErr where
  | valueError (msg : String)
  | attrError
deriving DecidableEq

/-- The `ValueError` message: `f"Gemini did not return valid JSON: {e}\nRaw: {raw[:500]}"`. -/
def gemRawMsg (e : String) (rawPrefix : String) : String :=
  "Gemini did not return valid JSON: " ++ e ++ "\nRaw: " ++ rawPrefix

/-- Python `x or default` for an optional decoded field (`data.get(k) or d`). -/
def truthyOr (v : Option Json) (d : Json) : Json :=
  match v with
  | some j => if j.pyTruthy then j else d
  | none => d

/-- `course = (data.get("course") or "").strip() or None` -/
def courseOfDict (kvs : List (String × Json)) : Except GemErr (Option String) :=
  match truthyOr (dictGet kvs "course") (Json.str "") with
  | .str s => .ok (if pyStrip s = "" then none else some (pyStrip s))
  | _ => .error .attrError

/-- Lines 120-124: `events = data.get("events")`; `None` (missing or JSON
    null) becomes `[]`; a non-list becomes `[events]` if it is a dict, else `[]`. -/
def eventsOfDict (kvs : List (String × Json)) : List Json :=
  match dictGet kvs "events" with
  | some (Json.arr l) => l
  | some (Json.obj o) => [Json.obj o]
  | _ => []

/-- `extract_course_and_events_with_gemini`, from the reply text on
    (`raw = (response.text or "").strip()`; the prompt construction and the
    network call do not affect the parse). -/
def extract_course_and_events_with_gemini (replyText : String) :
    Except GemErr (Option String × List Json) :=
  match json_loads (stripFences (pyStrip replyText)) with
  | .error e =>
    .error (.valueError (gemRawMsg e (strTake 500 (stripFences (pyStrip replyText)))))
  | .ok (Json.arr l) => .ok (none, l)
  | .ok (Json.obj kvs) =>
    match courseOfDict kvs with
    | .error err => .error err
    | .ok course => .ok (course, eventsOfDict kvs)
  | .ok _ => .ok (none, [])

/-! ### The Date Normalizer (`parse_event_date`)

`datetime.strptime` is modelled for exactly the five formats the code tries,
following CPython `_strptime.py`: `%Y` is exactly four digits, `%m` matches
`1[0-2]|0[1-9]|[1-9]`, `%d` matches `3[01]|[12]\d|0[1-9]|[1-9]`, `%B`/`%b`
match the English month names case-insensitively, a space in the format
matches a whitespace run `\s+`, other characters are literal, the whole
input must be consumed, and the resulting calendar date must exist
(`datetime(year, month, day)` validates ranges and month lengths).
`strftime("%Y-%m-%d")` is modelled as zero-padded rendering, as documented
for `%Y`/`%m`/`%d`; `datetime` years are always within 1..9999. -/

structure Ymd where
  y : Nat
  m : Nat
  d : Nat
deriving DecidableEq

def digitChar (n : Nat) : Char :=
  match n % 10 with
  | 0 => '0' | 1 => '1' | 2 => '2' | 3 => '3' | 4 => '4'
  | 5 => '5' | 6 => '6' | 7 => '7' | 8 => '8' | _ => '9'

def digVal (c : Char) : Nat := c.toNat - 48

def pad2 (n : Nat) : List Char := [digitChar (n / 10), digitChar n]

def pad4 (n : Nat) : List Char :=
  [digitChar (n / 1000), digitChar (n / 100), digitChar (n / 10), digitChar n]

/-- `strftime("%Y-%m-%d")` of a valid datetime. -/
def fmtYmdCh (t : Ymd) : List Char := pad4 t.y ++ '-' :: (pad2 t.m ++ '-' :: pad2 t.d)

def fmtYmd (t : Ymd) : String := String.mk (fmtYmdCh t)

/-- `re.match(r"^\d{4}-\d{2}-\d{2}$", s)` (full match; the stripped input
    cannot end in a newline, so `$` is end-of-string here). -/
def isCanonicalCh : List Char → Bool
  | [a, b, c, d, h1, e, f, h2, g, i] =>
    a.isDigit && b.isDigit && c.isDigit && d.isDigit && h1 == '-' &&
      e.isDigit && f.isDigit && h2 == '-' && g.isDigit && i.isDigit
  | _ => false

/-- `%Y`: exactly four digits. -/
def parse4d : List Char → Option (Nat × List Char)
  | a :: b :: c :: d :: r =>
    if a.isDigit && b.isDigit && c.isDigit && d.isDigit then
      some (1000 * digVal a + 100 * digVal b + 10 * digVal c + digVal d, r)
    else none
  | _ => none

/-- `%m`: the alternation `1[0-2]|0[1-9]|[1-9]`, in order. -/
def parseMonthNum : List Char → Option (Nat × List Char)
  | [] => none
  | '1' :: c :: r =>
    if c == '0' || c == '1' || c == '2' then some (10 + digVal c, r)
    else some (1, c :: r)
  | '0' :: c :: r => if '1' ≤ c && c ≤ '9' then some (digVal c, r) else none
  | c :: r => if '1' ≤ c && c ≤ '9' then some (digVal c, r) else none

/-- `%d`: the alternation `3[01]|[12]\d|0[1-9]|[1-9]`, in order. -/
def parseDayNum : List Char → Option (Nat × List Char)
  | [] => none
  | '3' :: c :: r =>
    if c == '0' || c == '1' then some (30 + digVal c, r) else some (3, c :: r)
  | a :: c :: r =>
    if (a == '1' || a == '2') && c.isDigit then some (10 * digVal a + digVal c, r)
    else if a == '0' then (if '1' ≤ c && c ≤ '9' then some (digVal c, r) else none)
    else if '1' ≤ a && a ≤ '9' then some (digVal a, c :: r)
    else none
  | a :: r => if '1' ≤ a && a ≤ '9' then some (digVal a, r) else none

/-- Case-insensitive literal prefix; `pat` is lowercase. -/
def stripPrefixCI : List Char → List Char → Option (List Char)
  | [], rest => some rest
  | p :: ps, c :: r => if c.toLower == p then stripPrefixCI ps r else none
  | _ :: _, [] => none

def monthNamesFull : List (Nat × List Char) :=
  [(1, "january".toList), (2, "february".toList), (3, "march".toList),
   (4, "april".toList), (5, "may".toList), (6, "june".toList),
   (7, "july".toList), (8, "august".toList), (9, "september".toList),
   (10, "october".toList), (11, "november".toList), (12, "december".toList)]

def monthNamesAbbr : List (Nat × List Char) :=
  [(1, "jan".toList), (2, "feb".toList), (3, "mar".toList), (4, "apr".toList),
   (5, "may".toList), (6, "jun".toList), (7, "jul".toList), (8, "aug".toList),
   (9, "sep".toList), (10, "oct".toList), (11, "nov".toList), (12, "dec".toList)]

/-- `%B` / `%b`: one of the month names, case-insensitively.  (CPython sorts
    the alternation by length; since no name in either list is a prefix of
    another name in the same list, trying them in calendar order is
    equivalent.) -/
def parseMonthName : List (Nat × List Char) → List Char → Option (Nat × List Char)
  | [], _ => none
  | (n, nm) :: rest, cs =>
    match stripPrefixCI nm cs with
    | some r => some (n, r)
    | none => parseMonthName rest cs

/-- A space in a `strptime` format: `\s+`. -/
def parseWs1 : List Char → Option (List Char)
  | c :: r => if isPyWs c then some (r.dropWhile isPyWs) else none
  | [] => none

def isLeap (y : Nat) : Bool := y % 4 == 0 && (y % 100 != 0 || y % 400 == 0)

def daysInMonth (y m : Nat) : Nat :=
  if m == 2 then (if isLeap y then 29 else 28)
  else if m == 4 || m == 6 || m == 9 || m == 11 then 30
  else 31

/-- `datetime(year, month, day)` constructor validation. -/
def validDate (y m d : Nat) : Bool :=
  1 ≤ y && y ≤ 9999 && 1 ≤ m && m ≤ 12 && 1 ≤ d && d ≤ daysInMonth y m

def mkValidDate (y m d : Nat) : Option Ymd :=
  if validDate y m d then some ⟨y, m, d⟩ else none

/-- `strptime(s, "%Y-%m-%d")` -/
def fmtIsoP (cs : List Char) : Option Ymd :=
  match parse4d cs with
  | some (y, '-' :: r1) =>
    match parseMonthNum r1 with
    | some (m, '-' :: r2) =>
      match parseDayNum r2 with
      | some (d, []) => mkValidDate y m d
      | _ => none
    | _ => none
  | _ => none

/-- `strptime(s, "%m/%d/%Y")` -/
def fmtUsP (cs : List Char) : Option Ymd :=
  match parseMonthNum cs with
  | some (m, '/' :: r1) =>
    match parseDayNum r1 with
    | some (d, '/' :: r2) =>
      match parse4d r2 with
      | some (y, []) => mkValidDate y m d
      | _ => none
    | _ => none
  | _ => none

/-- `strptime(s, "%B %d, %Y")` -/
def fmtLongP (cs : List Char) : Option Ymd :=
  match parseMonthName monthNamesFull cs with
  | some (m, r0) =>
    match parseWs1 r0 with
    | some r1 =>
      match parseDayNum r1 with
      | some (d, ',' :: r2) =>
        match parseWs1 r2 with
        | some r3 =>
          match parse4d r3 with
          | some (y, []) => mkValidDate y m d
          | _ => none
        | none => none
      | _ => none
    | none => none
  | none => none

/-- `strptime(s, "%b %d, %Y")` -/
def fmtAbbrP (cs : List Char) : Option Ymd :=
  match parseMonthName monthNamesAbbr cs with
  | some (m, r0) =>
    match parseWs1 r0 with
    | some r1 =>
      match parseDayNum r1 with
      | some (d, ',' :: r2) =>
        match parseWs1 r2 with
        | some r3 =>
          match parse4d r3 with
          | some (y, []) => mkValidDate y m d
          | _ => none
        | none => none
      | _ => none
    | none => none
  | none => none

/-- `strptime(s, "%d %B %Y")` -/
def fmtDayFirstP (cs : List Char) : Option Ymd :=
  match parseDayNum cs with
  | some (d, r0) =>
    match parseWs1 r0 with
    | some r1 =>
      match parseMonthName monthNamesFull r1 with
      | some (m, r2) =>
        match parseWs1 r2 with
        | some r3 =>
          match parse4d r3 with
          | some (y, []) => mkValidDate y m d
          | _ => none
        | none => none
      | none => none
    | none => none
  | none => none

/-- The `for fmt in (...)` loop: the formats in source order, first success. -/
def tryKnownFormats (cs : List Char) : Option Ymd :=
  [fmtIsoP, fmtUsP, fmtLongP, fmtAbbrP, fmtDayFirstP].findSome? (fun f => f cs)

/-- `parse_event_date` (lines 129-142).  `now` is `datetime.now()`'s calendar
    date; `str(date_str)` is the identity since the callers always pass a
    `str`. -/
def parse_event_date (now : Ymd) (date_str : String) : String :=
  if date_str = "" then fmtYmd now
  else if isCanonicalCh (pyStripCh date_str.toList) then String.mk (pyStripCh date_str.toList)
  else
    match tryKnownFormats (pyStripCh date_str.toList) with
    | some t => fmtYmd t
    | none => fmtYmd now

/-! ### The Request Handler (`_process_syllabus_impl`, `delete_class`)

External effects are supplied per request: the fetch outcome (network +
`raise_for_status`, else the payload bytes), the pypdf page texts for those
bytes (or an extraction error), the LLM reply text for the prompt, and the
Supabase insert/delete outcome.  `Effects` records which externally visible
side-effecting calls the request performed. -/

structure ProcessSyllabusRequest where
  file_url : String
  user_id : Option String := none
  source_filename : Option String := none
  course_name : Option String := none

structure DeleteClassRequest where
  user_id : String
  course_name : String

/-- A row inserted into the `events` table (lines 222-230).  `event_title`
    keeps the decoded JSON value: `ev.get("title") or "Untitled"` need not be
    a string. -/
structure EventRow where
  user_id : Option String
  source_filename : String
  source_url : String
  course_name : String
  event_date : String
  event_title : Json
  event_description : Option String

inductive HResult where
  | ok (events : List EventRow) (count : Nat) (course_name : String)
  | err (status : Nat) (detail : String)

structure Effects where
  llmCalled : Bool
  insertCalled : Bool

structure Deps where
  fetch : Except String (List Nat)
  pages : Except String (List String)
  reply : String
  insertRes : Except String Unit
  now : Ymd

/-- `extract_text_from_pdf_bytes`, from the per-page texts on. -/
def extract_text_from_pdf_bytes (pages : List String) : String :=
  pyStrip (String.join (pages.map (fun p => p ++ "\n")))

/-- `user_id = body.user_id.strip() if body.user_id else None` -/
def userIdOf (body : ProcessSyllabusRequest) : Option String :=
  match body.user_id with
  | none => none
  | some s => if s = "" then none else some (pyStrip s)

/-- `source_filename = (body.source_filename or "syllabus.pdf").strip()` -/
def sourceFilenameOf (body : ProcessSyllabusRequest) : String :=
  pyStrip (match body.source_filename with
    | none => "syllabus.pdf"
    | some s => if s = "" then "syllabus.pdf" else s)

/-- `course_override = (body.course_name or "").strip() or None` -/
def courseOverrideOf (body : ProcessSyllabusRequest) : Option String :=
  if pyStrip (body.course_name.getD "") = "" then none
  else some (pyStrip (body.course_name.getD ""))

/-- `course_name = course_override or course_from_ai or "Unnamed course"` —
    both options are `None` or a non-empty string, so Python's `or` chain is
    option fallback. -/
def resolveCourseName (override fromAi : Option String) : String :=
  ((override.orElse (fun _ => fromAi)).getD "Unnamed course")

/-- Stand-in detail string for an `AttributeError` escaping
    `_process_syllabus_impl` into the generic handler of `process_syllabus`
    (`f"Server error: {type(e).__name__}: {e}"`; the tail of the message
    depends on the offending Python type and is not modelled). -/
def serverAttrError : String := "Server error: AttributeError"

/-- One iteration of the row-building loop (lines 218-230).  `none` models
    the `AttributeError` raised by `ev.get(...)` when `ev` is not a dict. -/
def buildRow (user_id : Option String) (source_filename source_url course_name : String)
    (now : Ymd) (ev : Json) : Option EventRow :=
  match ev with
  | .obj kvs =>
    some
      { user_id := user_id
        source_filename := source_filename
        source_url := source_url
        course_name := course_name
        event_date :=
          parse_event_date now (truthyOr (dictGet kvs "date") (Json.str "")).pyStr
        event_title := truthyOr (dictGet kvs "title") (Json.str "Untitled")
        event_description :=
          if (truthyOr (dictGet kvs "type") (Json.str "")).pyTruthy then
            some ("Type: " ++ (truthyOr (dictGet kvs "type") (Json.str "")).pyStr)
          else none }
  | _ => none

/-- Steps of `_process_syllabus_impl` after a non-empty text was extracted:
    the Gemini call, course resolution, row building, conditional insert. -/
def afterText (deps : Deps) (body : ProcessSyllabusRequest) : HResult × Effects :=
  match extract_course_and_events_with_gemini deps.reply with
  | .error (.valueError msg) => (.err 502 msg, ⟨true, false⟩)
  | .error .attrError => (.err 500 serverAttrError, ⟨true, false⟩)
  | .ok (course_from_ai, events_from_ai) =>
    match events_from_ai.mapM
        (buildRow (userIdOf body) (sourceFilenameOf body) (pyStrip body.file_url)
          (resolveCourseName (courseOverrideOf body) course_from_ai) deps.now) with
    | none => (.err 500 serverAttrError, ⟨true, false⟩)
    | some rows =>
      if rows.isEmpty then
        (.ok rows 0 (resolveCourseName (courseOverrideOf body) course_from_ai),
          ⟨true, false⟩)
      else
        match deps.insertRes with
        | .error e =>
          (.err 500 ("Could not save events to database: " ++ e), ⟨true, true⟩)
        | .ok _ =>
          (.ok rows rows.length (resolveCourseName (courseOverrideOf body) course_from_ai),
            ⟨true, true⟩)

/-- `process_syllabus` / `_process_syllabus_impl`: the full request pipeline,
    including the outer generic exception handler. -/
def process_syllabus (deps : Deps) (body : ProcessSyllabusRequest) : HResult × Effects :=
  match deps.fetch with
  | .error e => (.err 400 ("Could not download PDF: " ++ e), ⟨false, false⟩)
  | .ok pdf_bytes =>
    if pdf_bytes.isEmpty then (.err 400 "PDF file is empty", ⟨false, false⟩)
    else
      match deps.pages with
      | .error e => (.err 400 ("Could not read PDF: " ++ e), ⟨false, false⟩)
      | .ok pages =>
        if extract_text_from_pdf_bytes pages = "" then
          (.err 400 "No text could be extracted from the PDF", ⟨false, false⟩)
        else afterText deps body

inductive DeleteResult where
  | ok (status : String)
  | err (status : Nat) (detail : String)

/-- `delete_class`: the store delete outcome (including a missing-configuration
    `ValueError` from `get_supabase`, caught by the same handler) is supplied
    as `res`.  A delete matching no rows is a `.ok ()` outcome of the store. -/
def delete_class (res : Except String Unit) (_body : DeleteClassRequest) : DeleteResult :=
  match res with
  | .error e => .err 500 ("Could not delete class events: " ++ e)
  | .ok _ => .ok "ok"

/-! ### Date-string builders for the recognized alternate formats (§8 of the
spec): `"03/15/2025"`, `"March 15, 2025"`, `"Mar 15, 2025"`, `"15 March 2025"`. -/

def monthNameCap : Nat → List Char
  | 1 => "January".toList | 2 => "February".toList | 3 => "March".toList
  | 4 => "April".toList | 5 => "May".toList | 6 => "June".toList
  | 7 => "July".toList | 8 => "August".toList | 9 => "September".toList
  | 10 => "October".toList | 11 => "November".toList | _ => "December".toList

def monthAbbrCap : Nat → List Char
  | 1 => "Jan".toList | 2 => "Feb".toList | 3 => "Mar".toList
  | 4 => "Apr".toList | 5 => "May".toList | 6 => "Jun".toList
  | 7 => "Jul".toList | 8 => "Aug".toList | 9 => "Sep".toList
  | 10 => "Oct".toList | 11 => "Nov".toList | _ => "Dec".toList

/-- `"03/15/2025"` -/
def usSlashStr (y m d : Nat) : String :=
  String.mk (pad2 m ++ '/' :: (pad2 d ++ '/' :: pad4 y))

/-- `"March 15, 2025"` (day zero-padded below 10, as `%d` accepts `0[1-9]`). -/
def longMonthStr (y m d : Nat) : String :=
  String.mk (monthNameCap m ++ ' ' :: (pad2 d ++ ',' :: ' ' :: pad4 y))

/-- `"Mar 15, 2025"` -/
def abbrMonthStr (y m d : Nat) : String :=
  String.mk (monthAbbrCap m ++ ' ' :: (pad2 d ++ ',' :: ' ' :: pad4 y))

/-- `"15 March 2025"` -/
def dayFirstStr (y m d : Nat) : String :=
  String.mk (pad2 d ++ ' ' :: (monthNameCap m ++ ' ' :: pad4 y))

/-! ## Theorems -/

/-! ### Shared lemmas about the Event Extraction Client -/

theorem extract_vErr_of_loads_error {reply e}
    (h : json_loads (stripFences (pyStrip reply)) = .error e) :
    extract_course_and_events_with_gemini reply =
      .error (.valueError (gemRawMsg e (strTake 500 (stripFences (pyStrip reply))))) := by
  unfold extract_course_and_events_with_gemini
  rw [h]

theorem extract_of_loads_scalar {reply : String} {v : Json}
    (h : json_loads (stripFences (pyStrip reply)) = .ok v) (hv : v.isScalar = true) :
    extract_course_and_events_with_gemini reply = .ok (none, []) := by
  unfold extract_course_and_events_with_gemini
  rw [h]
  cases v <;> simp_all [Json.isScalar]

/-! ### C1 — malformed model reply: 502, diagnostic message, no persistence -/

/-- C1: when the model reply is not valid JSON after fence stripping
    (`json_loads` fails with parse error `e`), and the request reached the
    extraction step (fetch returned a non-empty body, pypdf produced pages
    with non-empty concatenated text), the request fails with status 502
    carrying the `ValueError` message, which is built from the parse error
    and `raw[:500]` — a prefix of at most 500 characters of the (stripped)
    reply — and no persistence operation is attempted
    (`insertCalled = false`). -/
theorem C1_malformed_reply_502_no_persist
    (bs : List Nat) (pgs : List String) (reply : String) (ins : Except String Unit)
    (now : Ymd) (body : ProcessSyllabusRequest) (e : String)
    (hbs : bs ≠ []) (htxt : extract_text_from_pdf_bytes pgs ≠ "")
    (hjson : json_loads (stripFences (pyStrip reply)) = .error e) :
    process_syllabus ⟨.ok bs, .ok pgs, reply, ins, now⟩ body =
      (.err 502 (gemRawMsg e (strTake 500 (stripFences (pyStrip reply)))), ⟨true, false⟩)
    ∧ (strTake 500 (stripFences (pyStrip reply))).length ≤ 500 := by
  constructor
  · unfold process_syllabus
    simp only [List.isEmpty_iff, hbs, if_false, htxt, afterText, extract_vErr_of_loads_error hjson]
  · show (String.mk ((stripFences (pyStrip reply)).toList.take 500)).length ≤ 500
    have : (String.mk ((stripFences (pyStrip reply)).toList.take 500)).length
        = ((stripFences (pyStrip reply)).toList.take 500).length := rfl
    rw [this, List.length_take]
    exact Nat.min_le_left _ _

/-- Witness for C1 at a concrete request: reply `"hello"` is not JSON. -/
theorem C1_witness :
    process_syllabus ⟨.ok [1], .ok ["x"], "hello", .ok (), ⟨2026, 10, 12⟩⟩
        ⟨"http://u", none, none, none⟩ =
      (.err 502 "Gemini did not return valid JSON: Expecting value\nRaw: hello",
        ⟨true, false⟩)
    ∧ (strTake 500 (stripFences (pyStrip "hello"))).length ≤ 500 :=
  C1_malformed_reply_502_no_persist [1] ["x"] "hello" (.ok ()) ⟨2026, 10, 12⟩
    ⟨"http://u", none, none, none⟩ "Expecting value" (by decide) (by decide) rfl

/-! ### C8 — empty fetched body: 400, no LLM call, no persistence -/

/-- C8: a fetch that succeeds with a zero-length body fails the request with
    the 400 "PDF file is empty" error, and neither the LLM call nor any
    persistence operation is performed (`Effects` are both `false`). -/
theorem C8_empty_body_400_no_calls
    (pg : Except String (List String)) (reply : String) (ins : Except String Unit)
    (now : Ymd) (body : ProcessSyllabusRequest) :
    process_syllabus ⟨.ok [], pg, reply, ins, now⟩ body =
      (.err 400 "PDF file is empty", ⟨false, false⟩) := rfl

/-! ### C9 — delete_class outcomes -/

/-- C9: whenever the store delete operation does not raise, `delete_class`
    answers `{"status": "ok"}` — the model cannot distinguish a delete that
    matched no rows from one that deleted rows, both are `.ok ()` outcomes of
    the store — and a persistence error yields a 500 failure. -/
theorem C9_delete_class_ok_or_500
    (res : Except String Unit) (body : DeleteClassRequest) :
    (res = .ok () → delete_class res body = .ok "ok")
    ∧ (∀ e, res = .error e →
        delete_class res body = .err 500 ("Could not delete class events: " ++ e)) := by
  constructor
  · intro h; rw [h]; rfl
  · intro e h; rw [h]; rfl

/-- Witness for C9 at concrete outcomes, for both branches. -/
theorem C9_witness :
    delete_class (.ok ()) ⟨"u1", "CS 161"⟩ = .ok "ok"
    ∧ delete_class (.error "boom") ⟨"u1", "CS 161"⟩ =
        .err 500 "Could not delete class events: boom" :=
  ⟨(C9_delete_class_ok_or_500 (.ok ()) ⟨"u1", "CS 161"⟩).1 rfl,
   (C9_delete_class_ok_or_500 (.error "boom") ⟨"u1", "CS 161"⟩).2 "boom" rfl⟩

/-! ### C10 — scalar JSON reply: success with zero events, no persistence -/

/-- C10: a reply that parses as a JSON value that is neither a list nor an
    object raises no error: the client returns an absent course and an empty
    event list, and the whole request succeeds with count 0, resolved course
    name falling back through the override to the placeholder, and no
    persistence operation attempted. -/
theorem C10_scalar_reply_succeeds_count0
    (bs : List Nat) (pgs : List String) (reply : String) (ins : Except String Unit)
    (now : Ymd) (body : ProcessSyllabusRequest) (v : Json)
    (hbs : bs ≠ []) (htxt : extract_text_from_pdf_bytes pgs ≠ "")
    (hjson : json_loads (stripFences (pyStrip reply)) = .ok v) (hv : v.isScalar = true) :
    extract_course_and_events_with_gemini reply = .ok (none, [])
    ∧ process_syllabus ⟨.ok bs, .ok pgs, reply, ins, now⟩ body =
        (.ok [] 0 (resolveCourseName (courseOverrideOf body) none), ⟨true, false⟩) := by
  refine ⟨extract_of_loads_scalar hjson hv, ?_⟩
  unfold process_syllabus
  simp only [List.isEmpty_iff, hbs, if_false, htxt, afterText, extract_of_loads_scalar hjson hv]
  rfl

/-- Witness for C10: the reply `"null"` parses as JSON `null`. -/
theorem C10_witness :
    extract_course_and_events_with_gemini "null" = .ok (none, [])
    ∧ process_syllabus ⟨.ok [1], .ok ["x"], "null", .ok (), ⟨2026, 10, 12⟩⟩
        ⟨"http://u", none, none, none⟩ =
      (.ok [] 0 "Unnamed course", ⟨true, false⟩) :=
  C10_scalar_reply_succeeds_count0 [1] ["x"] "null" (.ok ()) ⟨2026, 10, 12⟩
    ⟨"http://u", none, none, none⟩ .null (by decide) (by decide) rfl rfl

/-! ### C3 — reply shapes (corrected)

The claim quantifies over every reply that parses as an object, but the code
computes `(data.get("course") or "").strip()` before looking at `"events"`:
when the `"course"` value is truthy and not a string (e.g. the number `5`),
Python raises `AttributeError` instead of returning any event list.  The
claim holds once the course field is required to be absent, falsy, or a
string (which is what `courseOfDict kvs = .ok c` expresses). -/

/-- C3 counterexample: the reply parses as an object whose `"events"` field
    is a single object, yet the client raises (`AttributeError` at
    `.strip()`) instead of returning a one-element event list, because
    `"course"` is the number `5`. -/
theorem C3_counterexample :
    extract_course_and_events_with_gemini "\x7b\"course\": 5, \"events\": \x7b\x7d\x7d" =
      .error .attrError := rfl

/-- C3 (amended): for a reply parsing as a bare JSON list, the course is
    absent and the events are the list itself; for a reply parsing as an
    object whose `"course"` field is absent, falsy, or a string, an
    `"events"` field that is a single object yields exactly that object as a
    one-element list, and an `"events"` field that is neither a list nor an
    object (including absent and `null`) yields the empty list. -/
theorem C3_reply_shapes
    (reply : String) (l : List Json) (kvs o : List (String × Json)) (c : Option String) :
    (json_loads (stripFences (pyStrip reply)) = .ok (.arr l) →
      extract_course_and_events_with_gemini reply = .ok (none, l))
    ∧ (json_loads (stripFences (pyStrip reply)) = .ok (.obj kvs) →
        courseOfDict kvs = .ok c →
        (dictGet kvs "events" = some (.obj o) →
          extract_course_and_events_with_gemini reply = .ok (c, [.obj o]))
        ∧ ((dictGet kvs "events").all Json.isScalar = true →
          extract_course_and_events_with_gemini reply = .ok (c, []))) := by
  constructor
  · intro h
    unfold extract_course_and_events_with_gemini
    rw [h]
  · intro h hc
    constructor
    · intro hev
      unfold extract_course_and_events_with_gemini
      rw [h]; dsimp only; rw [hc]
      simp [eventsOfDict, hev]
    · intro hev
      unfold extract_course_and_events_with_gemini
      rw [h]; dsimp only; rw [hc]
      unfold eventsOfDict
      cases hget : dictGet kvs "events" with
      | none => rfl
      | some v => rw [hget] at hev; cases v <;> simp_all [Json.isScalar]

/-- Witness for C3 at concrete replies: a bare list, an `"events"` single
    object, and a scalar `"events"` value. -/
theorem C3_witness :
    extract_course_and_events_with_gemini "[1]" = .ok (none, [Json.num "1"])
    ∧ extract_course_and_events_with_gemini "\x7b\"events\": \x7b\x7d\x7d" =
        .ok (none, [Json.obj []])
    ∧ extract_course_and_events_with_gemini "\x7b\"events\": 3\x7d" = .ok (none, []) :=
  ⟨(C3_reply_shapes "[1]" [Json.num "1"] [] [] none).1 rfl,
   ((C3_reply_shapes "\x7b\"events\": \x7b\x7d\x7d" [] [("events", Json.obj [])] [] none).2
      rfl rfl).1 rfl,
   ((C3_reply_shapes "\x7b\"events\": 3\x7d" [] [("events", Json.num "3")] [] none).2
      rfl rfl).2 rfl⟩

/-! ### C2 — fenced replies (corrected)

The claim quantifies over every language tag, but the opening-fence pattern
is `^```(?:json)?\s*`: only the tag `json` (or no tag) is removed.  Any other
tag (e.g. `python`) survives stripping and poisons the JSON parse. -/

theorem dropWhile_eq_self_of_head {p : Char → Bool} :
    ∀ {l : List Char}, (∀ c ∈ l.head?, p c = false) → l.dropWhile p = l
  | [], _ => rfl
  | a :: l, h => by
    have : p a = false := h a rfl
    simp [List.dropWhile_cons, this]

theorem pyStripCh_eq_self {cs : List Char}
    (h1 : ∀ c ∈ cs.head?, isPyWs c = false)
    (h2 : ∀ c ∈ cs.getLast?, isPyWs c = false) : pyStripCh cs = cs := by
  unfold pyStripCh
  rw [dropWhile_eq_self_of_head h1]
  rw [dropWhile_eq_self_of_head (by rw [List.head?_reverse]; exact h2)]
  exact List.reverse_reverse cs

/-- The client's result depends on the reply only through the stripped text. -/
theorem extract_congr {a b : String}
    (h : stripFences (pyStrip a) = stripFences (pyStrip b)) :
    extract_course_and_events_with_gemini a = extract_course_and_events_with_gemini b := by
  unfold extract_course_and_events_with_gemini
  rw [h]

theorem getLast?_tailfence (A l : List Char) :
    (A ++ (l ++ ['\n', '`', '`', '`'])).getLast? = some '`' := by
  rw [List.getLast?_append, List.getLast?_append]
  rfl

theorem getLast?_consfence (c : Char) (l : List Char) :
    (c :: (l ++ ['\n', '`', '`', '`'])).getLast? = some '`' := by
  rw [show c :: (l ++ ['\n', '`', '`', '`']) = (c :: l) ++ ['\n', '`', '`', '`'] from rfl,
    List.getLast?_append]
  rfl

theorem stripOpen_tagged (jl B : List Char) (hne : jl ≠ [])
    (h1 : jl.dropWhile isPyWs = jl) :
    stripOpenFence ('`' :: '`' :: '`' :: 'j' :: 's' :: 'o' :: 'n' :: '\n' :: (jl ++ B))
      = jl ++ B := by
  unfold stripOpenFence
  simp [List.dropWhile_cons, List.dropWhile_append, h1, hne, isPyWs]

theorem stripOpen_untagged (jl B : List Char) (hne : jl ≠ [])
    (h1 : jl.dropWhile isPyWs = jl) :
    stripOpenFence ('`' :: '`' :: '`' :: '\n' :: (jl ++ B)) = jl ++ B := by
  unfold stripOpenFence
  simp [List.dropWhile_cons, List.dropWhile_append, h1, hne, isPyWs]

theorem stripClose_tail (jl : List Char)
    (h2 : jl.reverse.dropWhile isPyWs = jl.reverse) :
    stripCloseFence (jl ++ ['\n', '`', '`', '`']) = jl := by
  unfold stripCloseFence
  rw [List.reverse_append]
  simp [List.dropWhile_cons, h2, isPyWs]

/-- C2 counterexample: with language tag `python` the fenced reply is not
    parsed like the bare JSON `[]` — only the tag `json` is stripped, so the
    claim fails for the tag `t = "python"`, `j = "[]"`. -/
theorem C2_counterexample :
    extract_course_and_events_with_gemini "```python\n[]\n```"
      ≠ extract_course_and_events_with_gemini "[]" := by
  intro h
  rw [show extract_course_and_events_with_gemini "```python\n[]\n```"
      = .error (.valueError "Gemini did not return valid JSON: Expecting value\nRaw: python\n[]")
      from rfl,
    show extract_course_and_events_with_gemini "[]" = .ok (none, []) from rfl] at h
  exact Except.noConfusion h

/-- C2 (amended): a reply consisting of `j` wrapped in a fenced code block
    whose opening fence carries the tag `json` or no tag parses identically
    to the bare `j`, provided `j` is non-empty, has no leading or trailing
    whitespace, and does not itself open with a code fence. -/
theorem C2_fenced_json_reply (j : String) (hne : j.toList ≠ [])
    (h1 : j.toList.dropWhile isPyWs = j.toList)
    (h2 : j.toList.reverse.dropWhile isPyWs = j.toList.reverse)
    (h3 : j.toList.take 3 ≠ ['`', '`', '`']) :
    extract_course_and_events_with_gemini ("```json\n" ++ j ++ "\n```")
      = extract_course_and_events_with_gemini j
    ∧ extract_course_and_events_with_gemini ("```\n" ++ j ++ "\n```")
      = extract_course_and_events_with_gemini j := by
  have hjr : stripFences (pyStrip j) = String.mk j.toList := by
    show String.mk (stripFencesCh (String.mk (pyStripCh j.toList)).toList) = _
    have hps : pyStripCh j.toList = j.toList := by
      unfold pyStripCh; rw [h1, h2, List.reverse_reverse]
    rw [show (String.mk (pyStripCh j.toList)).toList = pyStripCh j.toList from rfl, hps]
    unfold stripFencesCh
    rw [if_neg h3]
  constructor
  · have hdata : ("```json\n" ++ j ++ "\n```").toList
        = ['`', '`', '`', 'j', 's', 'o', 'n', '\n'] ++ (j.toList ++ ['\n', '`', '`', '`']) := by
      show ("```json\n" ++ j ++ "\n```").data = _
      rw [String.data_append, String.data_append]
      simp
    apply extract_congr
    rw [hjr]
    show String.mk (stripFencesCh (pyStripCh ("```json\n" ++ j ++ "\n```").toList)) = _
    rw [hdata, pyStripCh_eq_self (by simp [isPyWs])
      (by simp [getLast?_tailfence, getLast?_consfence, isPyWs])]
    show String.mk (stripCloseFence (stripOpenFence
      ('`' :: '`' :: '`' :: 'j' :: 's' :: 'o' :: 'n' :: '\n' :: (j.toList ++ ['\n', '`', '`', '`'])))) = _
    rw [stripOpen_tagged _ _ hne h1, stripClose_tail _ h2]
  · have hdata : ("```\n" ++ j ++ "\n```").toList
        = ['`', '`', '`', '\n'] ++ (j.toList ++ ['\n', '`', '`', '`']) := by
      show ("```\n" ++ j ++ "\n```").data = _
      rw [String.data_append, String.data_append]
      simp
    apply extract_congr
    rw [hjr]
    show String.mk (stripFencesCh (pyStripCh ("```\n" ++ j ++ "\n```").toList)) = _
    rw [hdata, pyStripCh_eq_self (by simp [isPyWs])
      (by simp [getLast?_tailfence, getLast?_consfence, isPyWs])]
    show String.mk (stripCloseFence (stripOpenFence
      ('`' :: '`' :: '`' :: '\n' :: (j.toList ++ ['\n', '`', '`', '`'])))) = _
    rw [stripOpen_untagged _ _ hne h1, stripClose_tail _ h2]

/-- Witness for C2 at `j = "[]"`, for both fence variants. -/
theorem C2_witness :
    extract_course_and_events_with_gemini "```json\n[]\n```"
      = extract_course_and_events_with_gemini "[]"
    ∧ extract_course_and_events_with_gemini "```\n[]\n```"
      = extract_course_and_events_with_gemini "[]" :=
  C2_fenced_json_reply "[]" (by decide) (by decide) (by decide) (by decide)

/-! ### C5 — the Date Normalizer is the identity on canonical dates -/

theorem isPyWs_eq_false_of_isDigit {c : Char} (h : c.isDigit = true) : isPyWs c = false := by
  simp only [isPyWs, Bool.or_eq_false_iff, beq_eq_false_iff_ne, ne_eq]
  refine ⟨⟨⟨⟨⟨?_, ?_⟩, ?_⟩, ?_⟩, ?_⟩, ?_⟩ <;> rintro rfl <;> exact absurd h (by decide)

/-- C5: every string already matching `\d{4}-\d{2}-\d{2}` is returned
    unchanged by `parse_event_date` (hence the normalizer is idempotent:
    its canonical output is a fixed point). -/
theorem C5_canonical_identity (now : Ymd) (s : String) (h : isCanonicalCh s.toList = true) :
    parse_event_date now s = s := by
  cases s with
  | mk data =>
    rcases data with _ | ⟨a, _ | ⟨b, _ | ⟨c, _ | ⟨d, _ | ⟨h1, _ | ⟨e, _ | ⟨f, _ | ⟨h2, _ | ⟨g, _ | ⟨i, _ | ⟨k, rest⟩⟩⟩⟩⟩⟩⟩⟩⟩⟩⟩ <;>
      first
        | exact Bool.noConfusion h
        | skip
    replace h : (a.isDigit && b.isDigit && c.isDigit && d.isDigit && (h1 == '-') &&
        e.isDigit && f.isDigit && (h2 == '-') && g.isDigit && i.isDigit) = true := h
    simp only [Bool.and_eq_true, beq_iff_eq] at h
    obtain ⟨⟨⟨⟨⟨⟨⟨⟨⟨ha, hb⟩, hc⟩, hd⟩, hh1⟩, he⟩, hf⟩, hh2⟩, hg⟩, hi⟩ := h
    have hls : pyStripCh (String.mk [a, b, c, d, h1, e, f, h2, g, i]).toList
        = [a, b, c, d, h1, e, f, h2, g, i] := by
      apply pyStripCh_eq_self
      · simp [isPyWs_eq_false_of_isDigit ha]
      · simp [List.getLast?_cons_cons, isPyWs_eq_false_of_isDigit hi]
    unfold parse_event_date
    rw [if_neg (by simp [String.ext_iff])]
    rw [hls]
    rw [if_pos (by simp [isCanonicalCh, ha, hb, hc, hd, hh1, he, hf, hh2, hg, hi])]

/-- Witness for C5 at `"2025-03-15"`. -/
theorem C5_witness : parse_event_date ⟨2026, 10, 12⟩ "2025-03-15" = "2025-03-15" :=
  C5_canonical_identity ⟨2026, 10, 12⟩ "2025-03-15" (by decide)

/-! ### C4 — every normalized date (hence every persisted event_date) is canonical -/

theorem digitChar_isDigit (n : Nat) : (digitChar n).isDigit = true := by
  unfold digitChar
  rcases hk : n % 10 with _ | _ | _ | _ | _ | _ | _ | _ | _ | k <;> rfl

theorem digVal_digitChar (n : Nat) : digVal (digitChar n) = n % 10 := by
  unfold digitChar
  have h10 : n % 10 < 10 := Nat.mod_lt _ (by norm_num)
  rcases hk : n % 10 with _ | _ | _ | _ | _ | _ | _ | _ | _ | k <;>
    first
      | rfl
      | (rw [hk] at h10
         have hk0 : k = 0 := by omega
         subst hk0
         rfl)

theorem fmtYmdCh_canonical (t : Ymd) : isCanonicalCh (fmtYmdCh t) = true := by
  show isCanonicalCh [digitChar (t.y / 1000), digitChar (t.y / 100), digitChar (t.y / 10),
    digitChar t.y, '-', digitChar (t.m / 10), digitChar t.m, '-',
    digitChar (t.d / 10), digitChar t.d] = true
  show (((digitChar (t.y / 1000)).isDigit && (digitChar (t.y / 100)).isDigit &&
    (digitChar (t.y / 10)).isDigit && (digitChar t.y).isDigit && (('-' : Char) == '-') &&
    (digitChar (t.m / 10)).isDigit && (digitChar t.m).isDigit && (('-' : Char) == '-') &&
    (digitChar (t.d / 10)).isDigit && (digitChar t.d).isDigit) = true)
  simp [digitChar_isDigit]

/-- The Date Normalizer's output is always canonical: each of its four exit
    points returns either the already-canonical input or a `strftime`
    rendering. -/
theorem parse_event_date_canonical (now : Ymd) (s : String) :
    isCanonicalCh (parse_event_date now s).toList = true := by
  unfold parse_event_date
  split
  · exact fmtYmdCh_canonical now
  · split
    · next hcan => exact hcan
    · split
      · exact fmtYmdCh_canonical _
      · exact fmtYmdCh_canonical now

theorem mapM_option_mem {α β} {f : α → Option β} :
    ∀ {l : List α} {bs : List β}, l.mapM f = some bs → ∀ b ∈ bs, ∃ a ∈ l, f a = some b := by
  intro l
  induction l with
  | nil =>
    intro bs h b hb
    rw [List.mapM_nil] at h
    simp only [pure, Option.some.injEq] at h
    subst h
    simp at hb
  | cons a t ih =>
    intro bs h b hb
    rw [List.mapM_cons] at h
    cases hfa : f a with
    | none => rw [hfa] at h; simp at h
    | some v =>
      rw [hfa] at h
      cases hmt : t.mapM f with
      | none => rw [hmt] at h; simp at h
      | some vs =>
        rw [hmt] at h
        simp at h
        subst h
        rcases List.mem_cons.mp hb with rfl | hb2
        · exact ⟨a, List.mem_cons_self a t, hfa⟩
        · obtain ⟨a2, ha2, hfa2⟩ := ih hmt b hb2
          exact ⟨a2, List.mem_cons_of_mem _ ha2, hfa2⟩

/-- Inversion of a successful run: a success means the client returned a
    course/events pair, every event built a row, and the returned course
    name is the resolved one. -/
theorem process_ok_inv {deps : Deps} {body : ProcessSyllabusRequest}
    {rows : List EventRow} {n : Nat} {cn : String} {eff : Effects}
    (h : process_syllabus deps body = (.ok rows n cn, eff)) :
    ∃ course_from_ai events_from_ai,
      extract_course_and_events_with_gemini deps.reply = .ok (course_from_ai, events_from_ai)
      ∧ events_from_ai.mapM (buildRow (userIdOf body) (sourceFilenameOf body)
          (pyStrip body.file_url) (resolveCourseName (courseOverrideOf body) course_from_ai)
          deps.now) = some rows
      ∧ cn = resolveCourseName (courseOverrideOf body) course_from_ai := by
  unfold process_syllabus at h
  cases hf : deps.fetch with
  | error e => rw [hf] at h; exact absurd (congrArg Prod.fst h) (by simp)
  | ok pdf_bytes =>
    rw [hf] at h
    dsimp only at h
    split at h
    · exact absurd (congrArg Prod.fst h) (by simp)
    · cases hp : deps.pages with
      | error e => rw [hp] at h; exact absurd (congrArg Prod.fst h) (by simp)
      | ok pages =>
        rw [hp] at h
        dsimp only at h
        split at h
        · exact absurd (congrArg Prod.fst h) (by simp)
        · unfold afterText at h
          cases hg : extract_course_and_events_with_gemini deps.reply with
          | error ge =>
            rw [hg] at h
            cases ge <;> exact absurd (congrArg Prod.fst h) (by simp)
          | ok pr =>
            obtain ⟨course_from_ai, events_from_ai⟩ := pr
            rw [hg] at h
            dsimp only at h
            cases hm : events_from_ai.mapM (buildRow (userIdOf body) (sourceFilenameOf body)
                (pyStrip body.file_url)
                (resolveCourseName (courseOverrideOf body) course_from_ai) deps.now) with
            | none => rw [hm] at h; exact absurd (congrArg Prod.fst h) (by simp)
            | some rows2 =>
              rw [hm] at h
              dsimp only at h
              refine ⟨course_from_ai, events_from_ai, rfl, ?_⟩
              split at h
              · have h1 := congrArg Prod.fst h
                simp only [HResult.ok.injEq] at h1
                obtain ⟨hr, _, hcn⟩ := h1
                exact ⟨by rw [← hr]; exact hm, hcn.symm⟩
              · cases hi : deps.insertRes with
                | error e => rw [hi] at h; exact absurd (congrArg Prod.fst h) (by simp)
                | ok u =>
                  rw [hi] at h
                  dsimp only at h
                  have h1 := congrArg Prod.fst h
                  simp only [HResult.ok.injEq] at h1
                  obtain ⟨hr, _, hcn⟩ := h1
                  exact ⟨by rw [← hr]; exact hm, hcn.symm⟩

theorem buildRow_date_canonical {u : Option String} {sf su cn : String} {now : Ymd}
    {ev : Json} {r : EventRow} (h : buildRow u sf su cn now ev = some r) :
    isCanonicalCh r.event_date.toList = true := by
  cases ev <;> simp [buildRow] at h
  rw [← h]
  exact parse_event_date_canonical now _

/-- C4: for every input string the Date Normalizer's output matches
    `\d{4}-\d{2}-\d{2}` (so every persisted `EventRow.event_date` does too,
    third conjunct), and an empty date string yields today's date instead of
    the event being dropped (second conjunct; `parse_event_date_canonical`
    covers unparseable strings, which also fall back to today). -/
theorem C4_event_date_canonical (now : Ymd) (s : String) (deps : Deps)
    (body : ProcessSyllabusRequest) (rows : List EventRow) (n : Nat) (cn : String)
    (eff : Effects) :
    isCanonicalCh (parse_event_date now s).toList = true
    ∧ parse_event_date now "" = fmtYmd now
    ∧ (process_syllabus deps body = (.ok rows n cn, eff) →
        ∀ r ∈ rows, isCanonicalCh r.event_date.toList = true) := by
  refine ⟨parse_event_date_canonical now s, rfl, ?_⟩
  intro h r hr
  obtain ⟨cfa, efa, hg, hm, hcn⟩ := process_ok_inv h
  obtain ⟨ev, hev, hb⟩ := mapM_option_mem hm r hr
  exact buildRow_date_canonical hb

/-- Witness for C4: an unparseable date string, the empty date string, and a
    concrete successful run whose single persisted row has a canonical date. -/
theorem C4_witness :
    isCanonicalCh (parse_event_date ⟨2026, 10, 12⟩ "garbage").toList = true
    ∧ parse_event_date ⟨2026, 10, 12⟩ "" = fmtYmd ⟨2026, 10, 12⟩
    ∧ isCanonicalCh (EventRow.event_date
        { user_id := some "u1"
          source_filename := "syllabus.pdf"
          source_url := "http://x/s.pdf"
          course_name := "CS 161"
          event_date := "2025-09-01"
          event_title := Json.str "HW1"
          event_description := some "Type: Assignment" }).toList = true :=
  ⟨(C4_event_date_canonical ⟨2026, 10, 12⟩ "garbage"
      ⟨.ok [1], .ok ["x"],
        "\x7b\"course\": \"CS 161\", \"events\": [\x7b\"title\": \"HW1\", \"date\": \"2025-09-01\", \"type\": \"Assignment\"\x7d]\x7d",
        .ok (), ⟨2026, 10, 12⟩⟩
      ⟨"http://x/s.pdf", some "u1", none, none⟩ [] 0 "" ⟨false, false⟩).1,
   (C4_event_date_canonical ⟨2026, 10, 12⟩ "garbage"
      ⟨.ok [1], .ok ["x"], "", .ok (), ⟨2026, 10, 12⟩⟩
      ⟨"http://x/s.pdf", some "u1", none, none⟩ [] 0 "" ⟨false, false⟩).2.1,
   ((C4_event_date_canonical ⟨2026, 10, 12⟩ "garbage"
      ⟨.ok [1], .ok ["x"],
        "\x7b\"course\": \"CS 161\", \"events\": [\x7b\"title\": \"HW1\", \"date\": \"2025-09-01\", \"type\": \"Assignment\"\x7d]\x7d",
        .ok (), ⟨2026, 10, 12⟩⟩
      ⟨"http://x/s.pdf", some "u1", none, none⟩
      [{ user_id := some "u1"
         source_filename := "syllabus.pdf"
         source_url := "http://x/s.pdf"
         course_name := "CS 161"
         event_date := "2025-09-01"
         event_title := Json.str "HW1"
         event_description := some "Type: Assignment" }] 1 "CS 161" ⟨true, true⟩).2.2
      rfl _ (List.mem_cons_self _ _))⟩

/-! ### C7 — course-name resolution and non-emptiness -/

theorem courseOverrideOf_ne_empty {body : ProcessSyllabusRequest} {c : String}
    (h : courseOverrideOf body = some c) : c ≠ "" := by
  unfold courseOverrideOf at h
  split at h
  · exact absurd h (by simp)
  · next hne =>
    simp only [Option.some.injEq] at h
    rw [← h]
    exact hne

theorem courseOfDict_some_ne_empty {kvs : List (String × Json)} {m : String}
    (h : courseOfDict kvs = .ok (some m)) : m ≠ "" := by
  unfold courseOfDict at h
  cases htr : truthyOr (dictGet kvs "course") (Json.str "") <;> rw [htr] at h <;>
    simp only [Except.ok.injEq] at h
  case str s =>
    split at h
    · exact absurd h (by simp)
    · next hne =>
      simp only [Option.some.injEq] at h
      rw [← h]
      exact hne
  all_goals exact absurd h (by simp)

/-- A model-derived course can only come from an object reply's `"course"`
    field, via `courseOfDict`. -/
theorem extract_some_course {reply : String} {m : String} {evs : List Json}
    (h : extract_course_and_events_with_gemini reply = .ok (some m, evs)) :
    ∃ kvs, courseOfDict kvs = .ok (some m) := by
  unfold extract_course_and_events_with_gemini at h
  cases hl : json_loads (stripFences (pyStrip reply)) with
  | error e => rw [hl] at h; exact absurd h (by simp)
  | ok v =>
    rw [hl] at h
    cases v with
    | obj kvs =>
      dsimp only at h
      cases hc : courseOfDict kvs with
      | error e => rw [hc] at h; exact absurd h (by simp)
      | ok c =>
        rw [hc] at h
        simp only [Except.ok.injEq, Prod.mk.injEq] at h
        exact ⟨kvs, by rw [hc, h.1]⟩
    | arr l => exact absurd h (by simp)
    | null => exact absurd h (by simp)
    | bool b => exact absurd h (by simp)
    | num lx => exact absurd h (by simp)
    | str s => exact absurd h (by simp)

theorem buildRow_course {u : Option String} {sf su cn : String} {now : Ymd}
    {ev : Json} {r : EventRow} (h : buildRow u sf su cn now ev = some r) :
    r.course_name = cn := by
  cases ev <;> simp [buildRow] at h
  rw [← h]

/-- C7: on a successful run whose client result is `(mc, evs)`, the returned
    course name is the resolved one (explicit trimmed override, else
    model-derived course, else the placeholder), it is never empty, a present
    override always wins, and every produced row carries exactly it. -/
theorem C7_course_resolution (deps : Deps) (body : ProcessSyllabusRequest)
    (rows : List EventRow) (n : Nat) (cn : String) (eff : Effects)
    (mc : Option String) (evs : List Json)
    (hrun : process_syllabus deps body = (.ok rows n cn, eff))
    (hgem : extract_course_and_events_with_gemini deps.reply = .ok (mc, evs)) :
    cn = resolveCourseName (courseOverrideOf body) mc
    ∧ cn ≠ ""
    ∧ (∀ c, courseOverrideOf body = some c → cn = c)
    ∧ ∀ r ∈ rows, r.course_name = cn := by
  obtain ⟨cfa, efa, hg, hm, hcn⟩ := process_ok_inv hrun
  rw [hgem] at hg
  simp only [Except.ok.injEq, Prod.mk.injEq] at hg
  obtain ⟨hmc, hevs⟩ := hg
  subst hmc hevs
  refine ⟨hcn, ?_, ?_, ?_⟩
  · rw [hcn]
    unfold resolveCourseName
    cases ho : courseOverrideOf body with
    | some c => simpa using courseOverrideOf_ne_empty ho
    | none =>
      cases hmcc : mc with
      | none => simp
      | some m =>
        obtain ⟨kvs, hk⟩ := extract_some_course (by rw [hgem, hmcc])
        simpa using courseOfDict_some_ne_empty hk
  · intro c hc
    rw [hcn, hc]
    simp [resolveCourseName]
  · intro r hr
    obtain ⟨ev, hev, hb⟩ := mapM_option_mem hm r hr
    rw [buildRow_course hb, hcn]

/-- Witness for C7 at a run where the caller supplies `course_name`
    `"My Course"` while the model reply derives `"CS 161"`: the override
    wins, is non-empty, and is stamped on the produced row. -/
theorem C7_witness :
    ("My Course" : String) =
      resolveCourseName
        (courseOverrideOf ⟨"http://x/s.pdf", some "u1", none, some "My Course"⟩)
        (some "CS 161")
    ∧ ("My Course" : String) ≠ ""
    ∧ ("My Course" : String) = "My Course"
    ∧ (EventRow.course_name
        { user_id := some "u1"
          source_filename := "syllabus.pdf"
          source_url := "http://x/s.pdf"
          course_name := "My Course"
          event_date := "2025-09-01"
          event_title := Json.str "HW1"
          event_description := some "Type: Assignment" }) = "My Course" :=
  (fun T => ⟨T.1, T.2.1, T.2.2.1 "My Course" rfl, T.2.2.2 _ (List.mem_cons_self _ _)⟩)
    (C7_course_resolution
      ⟨.ok [1], .ok ["x"],
        "\x7b\"course\": \"CS 161\", \"events\": [\x7b\"title\": \"HW1\", \"date\": \"2025-09-01\", \"type\": \"Assignment\"\x7d]\x7d",
        .ok (), ⟨2026, 10, 12⟩⟩
      ⟨"http://x/s.pdf", some "u1", none, some "My Course"⟩
      [{ user_id := some "u1"
         source_filename := "syllabus.pdf"
         source_url := "http://x/s.pdf"
         course_name := "My Course"
         event_date := "2025-09-01"
         event_title := Json.str "HW1"
         event_description := some "Type: Assignment" }] 1 "My Course" ⟨true, true⟩
      (some "CS 161")
      [Json.obj [("title", Json.str "HW1"), ("date", Json.str "2025-09-01"),
        ("type", Json.str "Assignment")]]
      rfl rfl)

/-! ### C6 — recognized alternate date formats

`strptime` building blocks: the numeric field parsers invert the `pad2`/
`pad4` renderings, the month-name parsers accept the capitalized names, and
whitespace runs after rendered fields do not extend into them. -/
theorem parseMonthNum_pad2 (m : Nat) (hm1 : 1 ≤ m) (hm2 : m ≤ 12) (r : List Char) :
    parseMonthNum (pad2 m ++ r) = some (m, r) := by
  interval_cases m <;> rfl

theorem parseDayNum_pad2 (d : Nat) (hd1 : 1 ≤ d) (hd2 : d ≤ 31) (r : List Char) :
    parseDayNum (pad2 d ++ r) = some (d, r) := by
  interval_cases d <;> rfl

theorem parse4d_pad4 (y : Nat) (hy : y ≤ 9999) (r : List Char) :
    parse4d (pad4 y ++ r) = some (y, r) := by
  show parse4d (digitChar (y / 1000) :: digitChar (y / 100) :: digitChar (y / 10) ::
    digitChar y :: r) = _
  unfold parse4d
  dsimp only
  rw [if_pos (by simp [digitChar_isDigit])]
  simp only [digVal_digitChar, Option.some.injEq, Prod.mk.injEq]
  exact ⟨by omega, trivial⟩

theorem parse4d_pad4_nil (y : Nat) (hy : y ≤ 9999) : parse4d (pad4 y) = some (y, []) := by
  have h := parse4d_pad4 y hy []
  rwa [List.append_nil] at h

theorem parseMonthName_full (m : Nat) (hm1 : 1 ≤ m) (hm2 : m ≤ 12) (r : List Char) :
    parseMonthName monthNamesFull (monthNameCap m ++ r) = some (m, r) := by
  interval_cases m <;> rfl

theorem parseMonthName_abbr (m : Nat) (hm1 : 1 ≤ m) (hm2 : m ≤ 12) (r : List Char) :
    parseMonthName monthNamesAbbr (monthAbbrCap m ++ r) = some (m, r) := by
  interval_cases m <;> rfl

theorem dropWhile_pad2 (n : Nat) (r : List Char) :
    (pad2 n ++ r).dropWhile isPyWs = pad2 n ++ r := by
  show (digitChar (n / 10) :: digitChar n :: r).dropWhile isPyWs = _
  simp only [List.dropWhile_cons, isPyWs_eq_false_of_isDigit (digitChar_isDigit _)]
  rfl

theorem dropWhile_pad4 (n : Nat) : (pad4 n).dropWhile isPyWs = pad4 n := by
  show (digitChar (n / 1000) :: digitChar (n / 100) :: digitChar (n / 10) ::
    digitChar n :: []).dropWhile isPyWs = _
  simp only [List.dropWhile_cons, isPyWs_eq_false_of_isDigit (digitChar_isDigit _)]
  rfl

theorem daysInMonth_le_31 (y m : Nat) : daysInMonth y m ≤ 31 := by
  unfold daysInMonth
  split
  · split <;> norm_num
  · split <;> norm_num

theorem mkValidDate_eq (y m d : Nat) (hy1 : 1 ≤ y) (hy2 : y ≤ 9999) (hm1 : 1 ≤ m)
    (hm2 : m ≤ 12) (hd1 : 1 ≤ d) (hd2 : d ≤ daysInMonth y m) :
    mkValidDate y m d = some ⟨y, m, d⟩ := by
  unfold mkValidDate
  rw [if_pos (by simp [validDate, hy1, hy2, hm1, hm2, hd1, hd2])]

theorem monthNameCap_head (m : Nat) :
    ∃ c cs, monthNameCap m = c :: cs ∧ isPyWs c = false ∧ c.isDigit = false := by
  unfold monthNameCap
  split <;> exact ⟨_, _, rfl, by decide, by decide⟩

theorem fmtUsP_success (y m d : Nat) (hy1 : 1 ≤ y) (hy2 : y ≤ 9999) (hm1 : 1 ≤ m)
    (hm2 : m ≤ 12) (hd1 : 1 ≤ d) (hd2 : d ≤ daysInMonth y m) :
    fmtUsP (pad2 m ++ '/' :: (pad2 d ++ '/' :: pad4 y)) = some ⟨y, m, d⟩ := by
  unfold fmtUsP
  simp only [parseMonthNum_pad2 m hm1 hm2, parseDayNum_pad2 d hd1 (le_trans hd2 (daysInMonth_le_31 y m)),
    parse4d_pad4_nil y hy2]
  exact mkValidDate_eq y m d hy1 hy2 hm1 hm2 hd1 hd2

theorem fmtIsoP_usStr (y m d : Nat) :
    fmtIsoP (pad2 m ++ '/' :: (pad2 d ++ '/' :: pad4 y)) = none := by
  show fmtIsoP (digitChar (m / 10) :: digitChar m :: '/' :: (pad2 d ++ '/' :: pad4 y)) = _
  show fmtIsoP (digitChar (m / 10) :: digitChar m :: '/' :: digitChar (d / 10) ::
    (digitChar d :: '/' :: pad4 y)) = _
  unfold fmtIsoP
  have hp : parse4d (digitChar (m / 10) :: digitChar m :: '/' :: digitChar (d / 10) ::
      (digitChar d :: '/' :: pad4 y)) = none := by
    unfold parse4d
    dsimp only
    rw [if_neg (by simp [digitChar_isDigit])]
  rw [hp]

theorem fmtLongP_success (y m d : Nat) (hy1 : 1 ≤ y) (hy2 : y ≤ 9999) (hm1 : 1 ≤ m)
    (hm2 : m ≤ 12) (hd1 : 1 ≤ d) (hd2 : d ≤ daysInMonth y m) :
    fmtLongP (monthNameCap m ++ ' ' :: (pad2 d ++ ',' :: ' ' :: pad4 y)) = some ⟨y, m, d⟩ := by
  unfold fmtLongP
  rw [parseMonthName_full m hm1 hm2]
  show (match parseWs1 (' ' :: (pad2 d ++ ',' :: ' ' :: pad4 y)) with
    | some r1 =>
      match parseDayNum r1 with
      | some (d, ',' :: r2) =>
        match parseWs1 r2 with
        | some r3 =>
          match parse4d r3 with
          | some (y, []) => mkValidDate y m d
          | _ => none
        | none => none
      | _ => none
    | none => none) = some ⟨y, m, d⟩
  rw [show parseWs1 (' ' :: (pad2 d ++ ',' :: ' ' :: pad4 y))
      = some ((pad2 d ++ ',' :: ' ' :: pad4 y).dropWhile isPyWs) from rfl]
  rw [dropWhile_pad2]
  simp only [parseDayNum_pad2 d hd1 (le_trans hd2 (daysInMonth_le_31 y m))]
  rw [show parseWs1 (' ' :: pad4 y) = some ((pad4 y).dropWhile isPyWs) from rfl]
  rw [dropWhile_pad4]
  simp only [parse4d_pad4_nil y hy2]
  exact mkValidDate_eq y m d hy1 hy2 hm1 hm2 hd1 hd2

theorem dropWhile_monthName (m : Nat) (r : List Char) :
    (monthNameCap m ++ r).dropWhile isPyWs = monthNameCap m ++ r := by
  obtain ⟨c, cs, hname, hws, _⟩ := monthNameCap_head m
  rw [hname, List.cons_append]
  simp only [List.dropWhile_cons, hws]
  rfl

theorem fmtAbbrP_success (y m d : Nat) (hy1 : 1 ≤ y) (hy2 : y ≤ 9999) (hm1 : 1 ≤ m)
    (hm2 : m ≤ 12) (hd1 : 1 ≤ d) (hd2 : d ≤ daysInMonth y m) :
    fmtAbbrP (monthAbbrCap m ++ ' ' :: (pad2 d ++ ',' :: ' ' :: pad4 y)) = some ⟨y, m, d⟩ := by
  unfold fmtAbbrP
  rw [parseMonthName_abbr m hm1 hm2]
  show (match parseWs1 (' ' :: (pad2 d ++ ',' :: ' ' :: pad4 y)) with
    | some r1 =>
      match parseDayNum r1 with
      | some (d, ',' :: r2) =>
        match parseWs1 r2 with
        | some r3 =>
          match parse4d r3 with
          | some (y, []) => mkValidDate y m d
          | _ => none
        | none => none
      | _ => none
    | none => none) = some ⟨y, m, d⟩
  rw [show parseWs1 (' ' :: (pad2 d ++ ',' :: ' ' :: pad4 y))
      = some ((pad2 d ++ ',' :: ' ' :: pad4 y).dropWhile isPyWs) from rfl]
  rw [dropWhile_pad2]
  simp only [parseDayNum_pad2 d hd1 (le_trans hd2 (daysInMonth_le_31 y m))]
  rw [show parseWs1 (' ' :: pad4 y) = some ((pad4 y).dropWhile isPyWs) from rfl]
  rw [dropWhile_pad4]
  simp only [parse4d_pad4_nil y hy2]
  exact mkValidDate_eq y m d hy1 hy2 hm1 hm2 hd1 hd2

theorem fmtDayFirstP_success (y m d : Nat) (hy1 : 1 ≤ y) (hy2 : y ≤ 9999) (hm1 : 1 ≤ m)
    (hm2 : m ≤ 12) (hd1 : 1 ≤ d) (hd2 : d ≤ daysInMonth y m) :
    fmtDayFirstP (pad2 d ++ ' ' :: (monthNameCap m ++ ' ' :: pad4 y)) = some ⟨y, m, d⟩ := by
  unfold fmtDayFirstP
  simp only [parseDayNum_pad2 d hd1 (le_trans hd2 (daysInMonth_le_31 y m))]
  rw [show parseWs1 (' ' :: (monthNameCap m ++ ' ' :: pad4 y))
      = some ((monthNameCap m ++ ' ' :: pad4 y).dropWhile isPyWs) from rfl]
  rw [dropWhile_monthName]
  simp only [parseMonthName_full m hm1 hm2]
  rw [show parseWs1 (' ' :: pad4 y) = some ((pad4 y).dropWhile isPyWs) from rfl]
  rw [dropWhile_pad4]
  simp only [parse4d_pad4_nil y hy2]
  exact mkValidDate_eq y m d hy1 hy2 hm1 hm2 hd1 hd2

theorem fmtIsoP_nameFull (m : Nat) (hm1 : 1 ≤ m) (hm2 : m ≤ 12) (r : List Char) :
    fmtIsoP (monthNameCap m ++ ' ' :: r) = none := by
  interval_cases m <;> rfl

theorem fmtUsP_nameFull (m : Nat) (hm1 : 1 ≤ m) (hm2 : m ≤ 12) (r : List Char) :
    fmtUsP (monthNameCap m ++ ' ' :: r) = none := by
  interval_cases m <;> rfl

theorem fmtIsoP_nameAbbr (m : Nat) (hm1 : 1 ≤ m) (hm2 : m ≤ 12) (r : List Char) :
    fmtIsoP (monthAbbrCap m ++ ' ' :: r) = none := by
  interval_cases m <;> rfl

theorem fmtUsP_nameAbbr (m : Nat) (hm1 : 1 ≤ m) (hm2 : m ≤ 12) (r : List Char) :
    fmtUsP (monthAbbrCap m ++ ' ' :: r) = none := by
  interval_cases m <;> rfl

theorem fmtLongP_nameAbbr (m : Nat) (hm1 : 1 ≤ m) (hm2 : m ≤ 12) (h5 : m ≠ 5) (r : List Char) :
    fmtLongP (monthAbbrCap m ++ ' ' :: r) = none := by
  interval_cases m <;> first | exact absurd rfl h5 | rfl

theorem fmtIsoP_dayFirst (y m d : Nat) :
    fmtIsoP (pad2 d ++ ' ' :: (monthNameCap m ++ ' ' :: pad4 y)) = none := by
  obtain ⟨c, cs, hname, _, _⟩ := monthNameCap_head m
  rw [hname]
  show fmtIsoP (digitChar (d / 10) :: digitChar d :: ' ' :: c :: (cs ++ ' ' :: pad4 y)) = _
  unfold fmtIsoP
  have hp : parse4d (digitChar (d / 10) :: digitChar d :: ' ' :: c ::
      (cs ++ ' ' :: pad4 y)) = none := by
    unfold parse4d
    dsimp only
    rw [if_neg (by simp [digitChar_isDigit])]
  rw [hp]

theorem dayFirst_mid_fail (d : Nat) (hd1 : 1 ≤ d) (hd2 : d ≤ 31) (X : List Char) :
    fmtUsP (pad2 d ++ ' ' :: X) = none
    ∧ fmtLongP (pad2 d ++ ' ' :: X) = none
    ∧ fmtAbbrP (pad2 d ++ ' ' :: X) = none := by
  interval_cases d <;> exact ⟨rfl, rfl, rfl⟩

theorem tryFormats_us (y m d : Nat) (hy1 : 1 ≤ y) (hy2 : y ≤ 9999) (hm1 : 1 ≤ m)
    (hm2 : m ≤ 12) (hd1 : 1 ≤ d) (hd2 : d ≤ daysInMonth y m) :
    tryKnownFormats (pad2 m ++ '/' :: (pad2 d ++ '/' :: pad4 y)) = some ⟨y, m, d⟩ := by
  unfold tryKnownFormats
  simp only [List.findSome?_cons, fmtIsoP_usStr y m d,
    fmtUsP_success y m d hy1 hy2 hm1 hm2 hd1 hd2]

theorem tryFormats_long (y m d : Nat) (hy1 : 1 ≤ y) (hy2 : y ≤ 9999) (hm1 : 1 ≤ m)
    (hm2 : m ≤ 12) (hd1 : 1 ≤ d) (hd2 : d ≤ daysInMonth y m) :
    tryKnownFormats (monthNameCap m ++ ' ' :: (pad2 d ++ ',' :: ' ' :: pad4 y))
      = some ⟨y, m, d⟩ := by
  unfold tryKnownFormats
  simp only [List.findSome?_cons, fmtIsoP_nameFull m hm1 hm2, fmtUsP_nameFull m hm1 hm2,
    fmtLongP_success y m d hy1 hy2 hm1 hm2 hd1 hd2]

theorem tryFormats_abbr (y m d : Nat) (hy1 : 1 ≤ y) (hy2 : y ≤ 9999) (hm1 : 1 ≤ m)
    (hm2 : m ≤ 12) (hd1 : 1 ≤ d) (hd2 : d ≤ daysInMonth y m) :
    tryKnownFormats (monthAbbrCap m ++ ' ' :: (pad2 d ++ ',' :: ' ' :: pad4 y))
      = some ⟨y, m, d⟩ := by
  by_cases h5 : m = 5
  · subst h5
    show tryKnownFormats (monthNameCap 5 ++ ' ' :: (pad2 d ++ ',' :: ' ' :: pad4 y)) = _
    exact tryFormats_long y 5 d hy1 hy2 hm1 hm2 hd1 hd2
  · unfold tryKnownFormats
    simp only [List.findSome?_cons, fmtIsoP_nameAbbr m hm1 hm2, fmtUsP_nameAbbr m hm1 hm2,
      fmtLongP_nameAbbr m hm1 hm2 h5,
      fmtAbbrP_success y m d hy1 hy2 hm1 hm2 hd1 hd2]

theorem tryFormats_dayFirst (y m d : Nat) (hy1 : 1 ≤ y) (hy2 : y ≤ 9999) (hm1 : 1 ≤ m)
    (hm2 : m ≤ 12) (hd1 : 1 ≤ d) (hd2 : d ≤ daysInMonth y m) :
    tryKnownFormats (pad2 d ++ ' ' :: (monthNameCap m ++ ' ' :: pad4 y)) = some ⟨y, m, d⟩ := by
  have hd31 := le_trans hd2 (daysInMonth_le_31 y m)
  obtain ⟨hus, hlong, habbr⟩ := dayFirst_mid_fail d hd1 hd31 (monthNameCap m ++ ' ' :: pad4 y)
  unfold tryKnownFormats
  simp only [List.findSome?_cons, fmtIsoP_dayFirst y m d, hus, hlong, habbr,
    fmtDayFirstP_success y m d hy1 hy2 hm1 hm2 hd1 hd2]

theorem getLast?_pad4 (A : List Char) (y : Nat) :
    (A ++ pad4 y).getLast? = some (digitChar y) := by
  rw [List.getLast?_append]
  rfl

theorem ped_us (now : Ymd) (y m d : Nat) (hy1 : 1 ≤ y) (hy2 : y ≤ 9999) (hm1 : 1 ≤ m)
    (hm2 : m ≤ 12) (hd1 : 1 ≤ d) (hd2 : d ≤ daysInMonth y m) :
    parse_event_date now (usSlashStr y m d) = fmtYmd ⟨y, m, d⟩ := by
  have hgl : (pad2 m ++ '/' :: (pad2 d ++ '/' :: pad4 y)).getLast? = some (digitChar y) := by
    rw [show pad2 m ++ '/' :: (pad2 d ++ '/' :: pad4 y)
        = (pad2 m ++ '/' :: (pad2 d ++ ['/'])) ++ pad4 y from by simp]
    exact getLast?_pad4 _ y
  have hstrip : pyStripCh (pad2 m ++ '/' :: (pad2 d ++ '/' :: pad4 y))
      = pad2 m ++ '/' :: (pad2 d ++ '/' :: pad4 y) := by
    apply pyStripCh_eq_self
    · show ∀ c ∈ (digitChar (m / 10) :: (digitChar m :: '/' :: (pad2 d ++ '/' :: pad4 y))).head?,
        isPyWs c = false
      simp [isPyWs_eq_false_of_isDigit (digitChar_isDigit _)]
    · simp [hgl, isPyWs_eq_false_of_isDigit (digitChar_isDigit _)]
  have hcanon : isCanonicalCh (pad2 m ++ '/' :: (pad2 d ++ '/' :: pad4 y)) = false := by
    show (((digitChar (m / 10)).isDigit && (digitChar m).isDigit && ('/' : Char).isDigit &&
      (digitChar (d / 10)).isDigit && (digitChar d == '-') && ('/' : Char).isDigit &&
      (digitChar (y / 1000)).isDigit && (digitChar (y / 100) == '-') &&
      (digitChar (y / 10)).isDigit && (digitChar y).isDigit) = false)
    simp [digitChar_isDigit]
  unfold parse_event_date
  rw [if_neg (show ¬ usSlashStr y m d = "" by
    simp [usSlashStr, String.ext_iff, pad2])]
  rw [show (usSlashStr y m d).toList = pad2 m ++ '/' :: (pad2 d ++ '/' :: pad4 y) from rfl]
  rw [hstrip]
  rw [if_neg (by rw [hcanon]; exact Bool.false_ne_true)]
  rw [tryFormats_us y m d hy1 hy2 hm1 hm2 hd1 hd2]

theorem isCanon_long_false (m : Nat) (hm1 : 1 ≤ m) (hm2 : m ≤ 12) (d y : Nat) :
    isCanonicalCh (monthNameCap m ++ ' ' :: (pad2 d ++ ',' :: ' ' :: pad4 y)) = false := by
  interval_cases m <;> rfl

theorem isCanon_abbr_false (m : Nat) (hm1 : 1 ≤ m) (hm2 : m ≤ 12) (d y : Nat) :
    isCanonicalCh (monthAbbrCap m ++ ' ' :: (pad2 d ++ ',' :: ' ' :: pad4 y)) = false := by
  interval_cases m <;> rfl

theorem isCanon_df_false (m : Nat) (hm1 : 1 ≤ m) (hm2 : m ≤ 12) (d y : Nat) :
    isCanonicalCh (pad2 d ++ ' ' :: (monthNameCap m ++ ' ' :: pad4 y)) = false := by
  interval_cases m <;> rfl

theorem ped_long (now : Ymd) (y m d : Nat) (hy1 : 1 ≤ y) (hy2 : y ≤ 9999) (hm1 : 1 ≤ m)
    (hm2 : m ≤ 12) (hd1 : 1 ≤ d) (hd2 : d ≤ daysInMonth y m) :
    parse_event_date now (longMonthStr y m d) = fmtYmd ⟨y, m, d⟩ := by
  obtain ⟨c, cs, hname, hws, _⟩ := monthNameCap_head m
  have hgl : (monthNameCap m ++ ' ' :: (pad2 d ++ ',' :: ' ' :: pad4 y)).getLast?
      = some (digitChar y) := by
    rw [show monthNameCap m ++ ' ' :: (pad2 d ++ ',' :: ' ' :: pad4 y)
        = (monthNameCap m ++ ' ' :: (pad2 d ++ [',', ' '])) ++ pad4 y from by simp]
    exact getLast?_pad4 _ y
  have hstrip : pyStripCh (monthNameCap m ++ ' ' :: (pad2 d ++ ',' :: ' ' :: pad4 y))
      = monthNameCap m ++ ' ' :: (pad2 d ++ ',' :: ' ' :: pad4 y) := by
    apply pyStripCh_eq_self
    · rw [hname]
      show ∀ c2 ∈ (c :: (cs ++ ' ' :: (pad2 d ++ ',' :: ' ' :: pad4 y))).head?,
        isPyWs c2 = false
      simp [hws]
    · simp [hgl, isPyWs_eq_false_of_isDigit (digitChar_isDigit _)]
  unfold parse_event_date
  rw [if_neg (show ¬ longMonthStr y m d = "" by
    simp only [longMonthStr, String.ext_iff]
    rw [hname]
    simp)]
  rw [show (longMonthStr y m d).toList
      = monthNameCap m ++ ' ' :: (pad2 d ++ ',' :: ' ' :: pad4 y) from rfl]
  rw [hstrip]
  rw [if_neg (by rw [isCanon_long_false m hm1 hm2 d y]; exact Bool.false_ne_true)]
  rw [tryFormats_long y m d hy1 hy2 hm1 hm2 hd1 hd2]

theorem ped_abbr (now : Ymd) (y m d : Nat) (hy1 : 1 ≤ y) (hy2 : y ≤ 9999) (hm1 : 1 ≤ m)
    (hm2 : m ≤ 12) (hd1 : 1 ≤ d) (hd2 : d ≤ daysInMonth y m) :
    parse_event_date now (abbrMonthStr y m d) = fmtYmd ⟨y, m, d⟩ := by
  have habbrhead : ∃ c cs, monthAbbrCap m = c :: cs ∧ isPyWs c = false ∧ c.isDigit = false := by
    unfold monthAbbrCap
    split <;> exact ⟨_, _, rfl, by decide, by decide⟩
  obtain ⟨c, cs, hname, hws, _⟩ := habbrhead
  have hgl : (monthAbbrCap m ++ ' ' :: (pad2 d ++ ',' :: ' ' :: pad4 y)).getLast?
      = some (digitChar y) := by
    rw [show monthAbbrCap m ++ ' ' :: (pad2 d ++ ',' :: ' ' :: pad4 y)
        = (monthAbbrCap m ++ ' ' :: (pad2 d ++ [',', ' '])) ++ pad4 y from by simp]
    exact getLast?_pad4 _ y
  have hstrip : pyStripCh (monthAbbrCap m ++ ' ' :: (pad2 d ++ ',' :: ' ' :: pad4 y))
      = monthAbbrCap m ++ ' ' :: (pad2 d ++ ',' :: ' ' :: pad4 y) := by
    apply pyStripCh_eq_self
    · rw [hname]
      show ∀ c2 ∈ (c :: (cs ++ ' ' :: (pad2 d ++ ',' :: ' ' :: pad4 y))).head?,
        isPyWs c2 = false
      simp [hws]
    · simp [hgl, isPyWs_eq_false_of_isDigit (digitChar_isDigit _)]
  unfold parse_event_date
  rw [if_neg (show ¬ abbrMonthStr y m d = "" by
    simp only [abbrMonthStr, String.ext_iff]
    rw [hname]
    simp)]
  rw [show (abbrMonthStr y m d).toList
      = monthAbbrCap m ++ ' ' :: (pad2 d ++ ',' :: ' ' :: pad4 y) from rfl]
  rw [hstrip]
  rw [if_neg (by rw [isCanon_abbr_false m hm1 hm2 d y]; exact Bool.false_ne_true)]
  rw [tryFormats_abbr y m d hy1 hy2 hm1 hm2 hd1 hd2]

theorem ped_df (now : Ymd) (y m d : Nat) (hy1 : 1 ≤ y) (hy2 : y ≤ 9999) (hm1 : 1 ≤ m)
    (hm2 : m ≤ 12) (hd1 : 1 ≤ d) (hd2 : d ≤ daysInMonth y m) :
    parse_event_date now (dayFirstStr y m d) = fmtYmd ⟨y, m, d⟩ := by
  have hgl : (pad2 d ++ ' ' :: (monthNameCap m ++ ' ' :: pad4 y)).getLast?
      = some (digitChar y) := by
    rw [show pad2 d ++ ' ' :: (monthNameCap m ++ ' ' :: pad4 y)
        = (pad2 d ++ ' ' :: (monthNameCap m ++ [' '])) ++ pad4 y from by simp]
    exact getLast?_pad4 _ y
  have hstrip : pyStripCh (pad2 d ++ ' ' :: (monthNameCap m ++ ' ' :: pad4 y))
      = pad2 d ++ ' ' :: (monthNameCap m ++ ' ' :: pad4 y) := by
    apply pyStripCh_eq_self
    · show ∀ c ∈ (digitChar (d / 10) :: (digitChar d :: ' ' :: (monthNameCap m ++ ' ' :: pad4 y))).head?,
        isPyWs c = false
      simp [isPyWs_eq_false_of_isDigit (digitChar_isDigit _)]
    · simp [hgl, isPyWs_eq_false_of_isDigit (digitChar_isDigit _)]
  unfold parse_event_date
  rw [if_neg (show ¬ dayFirstStr y m d = "" by
    simp [dayFirstStr, String.ext_iff, pad2])]
  rw [show (dayFirstStr y m d).toList
      = pad2 d ++ ' ' :: (monthNameCap m ++ ' ' :: pad4 y) from rfl]
  rw [hstrip]
  rw [if_neg (by rw [isCanon_df_false m hm1 hm2 d y]; exact Bool.false_ne_true)]
  rw [tryFormats_dayFirst y m d hy1 hy2 hm1 hm2 hd1 hd2]

/-- C6: for every valid calendar date (y, m, d) with y ≤ 9999, each of the
    recognized alternate renderings — US slash-form `03/15/2025`, long month
    name with comma `March 15, 2025`, abbreviated month name with comma
    `Mar 15, 2025`, and day-first long month name `15 March 2025` — is
    normalized to the canonical `YYYY-MM-DD` form, and the format attempt is
    the first success over the source-ordered format list (final conjunct). -/
theorem C6_alternate_formats (now : Ymd) (y m d : Nat) (hy1 : 1 ≤ y) (hy2 : y ≤ 9999) (hm1 : 1 ≤ m)
    (hm2 : m ≤ 12) (hd1 : 1 ≤ d) (hd2 : d ≤ daysInMonth y m) :
    parse_event_date now (usSlashStr y m d) = fmtYmd ⟨y, m, d⟩
    ∧ parse_event_date now (longMonthStr y m d) = fmtYmd ⟨y, m, d⟩
    ∧ parse_event_date now (abbrMonthStr y m d) = fmtYmd ⟨y, m, d⟩
    ∧ parse_event_date now (dayFirstStr y m d) = fmtYmd ⟨y, m, d⟩
    ∧ (∀ cs, tryKnownFormats cs =
        (fmtIsoP cs).orElse fun _ => (fmtUsP cs).orElse fun _ =>
          (fmtLongP cs).orElse fun _ => (fmtAbbrP cs).orElse fun _ => fmtDayFirstP cs) :=
  ⟨ped_us now y m d hy1 hy2 hm1 hm2 hd1 hd2,
   ped_long now y m d hy1 hy2 hm1 hm2 hd1 hd2,
   ped_abbr now y m d hy1 hy2 hm1 hm2 hd1 hd2,
   ped_df now y m d hy1 hy2 hm1 hm2 hd1 hd2,
   fun cs => by
     unfold tryKnownFormats
     cases h1 : fmtIsoP cs <;> cases h2 : fmtUsP cs <;> cases h3 : fmtLongP cs <;>
       cases h4 : fmtAbbrP cs <;>
       simp [List.findSome?_cons, h1, h2, h3, h4, Option.orElse] <;>
       (cases fmtDayFirstP cs <;> rfl)⟩


/-- Witness for C6 at the spec's example date 2025-03-15 in all four forms. -/
theorem C6_witness :
    parse_event_date ⟨2026, 10, 12⟩ "03/15/2025" = "2025-03-15"
    ∧ parse_event_date ⟨2026, 10, 12⟩ "March 15, 2025" = "2025-03-15"
    ∧ parse_event_date ⟨2026, 10, 12⟩ "Mar 15, 2025" = "2025-03-15"
    ∧ parse_event_date ⟨2026, 10, 12⟩ "15 March 2025" = "2025-03-15" := by
  have T := C6_alternate_formats ⟨2026, 10, 12⟩ 2025 3 15 (by decide) (by decide)
    (by decide) (by decide) (by decide) (by decide)
  exact ⟨T.1, T.2.1, T.2.2.1, T.2.2.2.1⟩
